import Mathlib

/-!
Verification of the API request/response normalization layer:
`apiRequest` / `apiWithTimeout` (src/frontend/data/data-api.ts) and
`handleApiError` / `validateApiResponse` (the error-handler module).
JavaScript runtime values are modelled by a `Json` type with JS
truthiness; field access on `null` throws, matching JS semantics.
-/

/-- JSON values as produced by `response.json()`.  JS `undefined` is not a
JSON value; absence of a field is modelled by `Option Json = none`. -/
inductive Json where
  | null : Json
  | bool : Bool → Json
  | num : Int → Json
  | str : String → Json
  | arr : List Json → Json
  | obj : List (String × Json) → Json

/-- JS truthiness of a JSON value: `null`, `false`, `0` and `""` are falsy;
every object and array is truthy. -/
def Json.truthy : Json → Bool
  | .null => false
  | .bool b => b
  | .num n => n != 0
  | .str s => s != ""
  | .arr _ => true
  | .obj _ => true

/-- JS truthiness of a possibly-undefined value (`none` = `undefined`). -/
def truthyOpt : Option Json → Bool
  | none => false
  | some v => v.truthy

/-- A thrown JS value as observed by a `catch` block: whether it is an
`Error` instance, and its `name` / `message` (meaningful when `isError`;
`(e as Error).name` on a non-Error evaluates to `undefined`). -/
structure JsErr where
  isError : Bool
  name : String
  message : String
deriving DecidableEq, Repr

/-- The `TypeError` thrown by property access on `null`. -/
def typeError : JsErr :=
  ⟨true, "TypeError", "Cannot read properties of null"⟩

/-- Plain property access `v.k`: throws a `TypeError` on `null`, yields
the field for objects (`none` when absent) and `undefined` for other
primitives. -/
def Json.member (v : Json) (k : String) : Except JsErr (Option Json) :=
  match v with
  | .null => .error typeError
  | .obj l => .ok (l.lookup k)
  | _ => .ok none

/-- Optional chaining `o?.k`: `undefined` propagates, `null` yields
`undefined`, otherwise plain field access. -/
def optChain : Option Json → String → Option Json
  | none, _ => none
  | some .null, _ => none
  | some (.obj l), k => l.lookup k
  | some _, _ => none

/-- Nullish coalescing `o ?? d`: the default applies exactly when the
value is `undefined` or `null`. -/
def nullish : Option Json → Json → Json
  | none, d => d
  | some .null, d => d
  | some v, _ => v

/-- Strict equality `o === 404` on a possibly-undefined value. -/
def is404 : Option Json → Bool
  | some (.num n) => n == 404
  | _ => false

/-- A raw `fetch` Response: HTTP status, status text, and the outcome of
`response.json()` (which throws on a malformed body). -/
structure RawResponse where
  status : Nat
  statusText : String
  body : Except JsErr Json

/-- Source `Response.ok`: the status is in the 2xx range. -/
def RawResponse.ok (r : RawResponse) : Bool :=
  200 ≤ r.status && r.status ≤ 299

/-- Behaviour of the underlying network transport for one `fetch` call:
it settles after `latencyMs` milliseconds with a response or with a
rejection (network failure), or it never settles.  `apiRequest` exposes
no abort handle to its caller, so no caller-initiated abort occurs. -/
inductive NetBehavior where
  | completes (latencyMs : Nat) (resp : RawResponse)
  | fails (latencyMs : Nat) (err : JsErr)
  | hangs

/-- The `AbortError` with which `fetch` rejects when the timeout timer
runs `controller.abort()`. -/
def abortError : JsErr := ⟨true, "AbortError", "The operation was aborted"⟩

/-- Source `apiWithTimeout`: races the transport against a timer armed for
`timeoutMs`; if the timer fires before the call settles, the in-flight
call is aborted and `fetch` rejects with an `AbortError`. -/
def apiWithTimeout (net : NetBehavior) (timeoutMs : Nat) :
    Except JsErr RawResponse :=
  match net with
  | .completes lat resp =>
      if lat ≤ timeoutMs then .ok resp else .error abortError
  | .fails lat e =>
      if lat ≤ timeoutMs then .error e else .error abortError
  | .hangs => .error abortError

inductive HTTPMethod where
  | GET | POST | PUT | PATCH | DELETE
deriving DecidableEq, Repr

/-- Modelled from the spec: the `TStrapiResponse` envelope type is
declared in `@/types`, which is not among the given sources.  Per the
spec's data model it carries `success`, `status`, and optionally `data`,
`meta` and a structured `error`.  Fields are `Option`s (`none` =
absent/undefined) so that the shapes actually constructed at runtime can
be stated and the tagged-union invariant proved rather than assumed. -/
structure Envelope where
  success : Bool
  status : Nat
  data : Option Json := none
  meta : Option Json := none
  error : Option Json := none

/-- A structured error object literal `{ status, name, message }`. -/
def errObj (status : Int) (nm msg : Json) : Json :=
  .obj [("status", .num status), ("name", nm), ("message", msg)]

/-- The body of `apiRequest`'s `try` block once `fetch` has returned a
response: DELETE short-circuits on the HTTP status without touching the
body; every other verb parses the body as JSON and normalizes it.  The
`Except` layer carries exceptions thrown inside the block (malformed
JSON, property access on a `null` body). -/
def handleResponse (method : HTTPMethod) (r : RawResponse) :
    Except JsErr Envelope :=
  if method = .DELETE then
    if r.ok then
      .ok { success := true, status := r.status, data := some (.bool true) }
    else
      .ok { success := false, status := r.status,
            error := some (errObj r.status (.str "Error")
              (.str "Failed to delete resource")) }
  else do
    let data ← r.body
    if !r.ok then
      let derr ← data.member "error"
      if truthyOpt derr then
        .ok { success := false, status := r.status, error := derr }
      else
        .ok { success := false, status := r.status,
              error := some (errObj r.status
                (nullish (optChain derr "name") (.str "Error"))
                (nullish (optChain derr "message")
                  (.str (if r.statusText != "" then r.statusText
                         else "An error occurred")))) }
    else
      let dd ← data.member "data"
      let dm ← data.member "meta"
      .ok { success := true, status := r.status,
            data := some (if truthyOpt dd then dd.getD data else data),
            meta := if truthyOpt dm then dm else none }

/-- The synthetic 408 timeout envelope. -/
def timeoutEnvelope : Envelope :=
  { success := false, status := 408,
    error := some (errObj 408 (.str "TimeoutError")
      (.str "The request timed out. Please try again.")) }

/-- The synthetic 500 network-error envelope built from a caught
exception. -/
def networkErrorEnvelope (e : JsErr) : Envelope :=
  { success := false, status := 500,
    error := some (errObj 500 (.str "NetworkError")
      (.str (if e.isError then e.message else "Something went wrong"))) }

/-- Source `apiRequest`: issues the request with timeout protection and
normalizes every outcome into an envelope.  The catch block turns a
caught `AbortError` into the synthetic 408 timeout envelope and any
other exception into the synthetic 500 network-error envelope. -/
def apiRequest (method : HTTPMethod) (net : NetBehavior)
    (timeoutMs : Nat) : Envelope :=
  match apiWithTimeout net timeoutMs >>= handleResponse method with
  | .ok env => env
  | .error e =>
      if e.isError && e.name == "AbortError" then timeoutEnvelope
      else networkErrorEnvelope e

/-- The observable outcome of the result-interpreter helpers: return a
value, throw an `Error` whose message is the given JS value, or transfer
control to the router's not-found redirect. -/
inductive InterpResult (α : Type) where
  | ok (a : α)
  | thrown (msg : Json)
  | redirectNotFound

/-- Source `resourceName || "resource"` (JS `||` on an optional string). -/
def labelOr : Option String → String
  | none => "resource"
  | some s => if s != "" then s else "resource"

/-- The message thrown for a failing non-404 envelope:
`data?.error?.message || generic failed-to-load text`. -/
def failMessage (env : Envelope) (resourceName : Option String) : Json :=
  match optChain env.error "message" with
  | some v =>
      if v.truthy then v
      else .str ("Failed to load " ++ labelOr resourceName)
  | none => .str ("Failed to load " ++ labelOr resourceName)

/-- Source `handleApiError`: an absent envelope throws a generic failure;
`error.status === 404` triggers the not-found redirect; an unsuccessful
or truthy-data-less envelope throws; otherwise it returns silently. -/
def handleApiError (data : Option Envelope)
    (resourceName : Option String) : InterpResult Unit :=
  match data with
  | none => .thrown (.str ("Failed to load " ++ labelOr resourceName))
  | some env =>
      if is404 (optChain env.error "status") then .redirectNotFound
      else if !env.success || !truthyOpt env.data then
        .thrown (failMessage env resourceName)
      else .ok ()

/-- Source `validateApiResponse`: runs `handleApiError`, then returns
`data!.data!` (the raw field, asserted non-null). -/
def validateApiResponse (data : Option Envelope)
    (resourceName : Option String) : InterpResult (Option Json) :=
  match handleApiError data resourceName with
  | .ok _ => .ok (data.bind Envelope.data)
  | .thrown m => .thrown m
  | .redirectNotFound => .redirectNotFound

/-- Whether the timeout timer fires before the transport settles. -/
def timedOut : NetBehavior → Nat → Bool
  | .completes lat _, t => t < lat
  | .fails lat _, t => t < lat
  | .hangs, _ => true

/-- The real HTTP status carried by the transport outcome, when a
response was actually delivered. -/
def NetBehavior.realStatus : NetBehavior → Option Nat
  | .completes _ r => some r.status
  | .fails _ _ => none
  | .hangs => none

theorem apiWithTimeout_completes {lat t : Nat} (h : lat ≤ t)
    (r : RawResponse) : apiWithTimeout (.completes lat r) t = .ok r := by
  simp [apiWithTimeout, h]

theorem ok_eq_true {status : Nat} (stx : String) (b : Except JsErr Json)
    (h : 200 ≤ status ∧ status ≤ 299) :
    RawResponse.ok ⟨status, stx, b⟩ = true := by
  simp [RawResponse.ok]; omega

theorem ok_eq_false {status : Nat} (stx : String) (b : Except JsErr Json)
    (h : ¬ (200 ≤ status ∧ status ≤ 299)) :
    RawResponse.ok ⟨status, stx, b⟩ = false := by
  simp [RawResponse.ok]; omega

theorem optChain_of_falsy {o : Option Json} (h : truthyOpt o = false)
    (k : String) : optChain o k = none := by
  match o with
  | none => rfl
  | some .null => rfl
  | some (.bool b) => rfl
  | some (.num n) => rfl
  | some (.str s) => rfl
  | some (.arr l) => simp [truthyOpt, Json.truthy] at h
  | some (.obj l) => simp [truthyOpt, Json.truthy] at h

theorem member_of_ne_null {body : Json} (h : body ≠ .null) (k : String) :
    body.member k = .ok (optChain (some body) k) := by
  match body with
  | .null => exact absurd rfl h
  | .bool b => rfl
  | .num n => rfl
  | .str s => rfl
  | .arr l => rfl
  | .obj l => rfl

/-- C7: for every DELETE request the response body is never parsed (the
resulting envelope does not depend on the body at all); a 2xx status
yields a success envelope with `data = true`, and any non-2xx status
yields a failure envelope carrying the real HTTP status and the generic
failed-to-delete message. -/
theorem c7_delete_ignores_body (lat t : Nat) (hlat : lat ≤ t)
    (status : Nat) (stx : String) (b1 b2 : Except JsErr Json) :
    apiRequest .DELETE (.completes lat ⟨status, stx, b1⟩) t
      = apiRequest .DELETE (.completes lat ⟨status, stx, b2⟩) t ∧
    (200 ≤ status ∧ status ≤ 299 →
      apiRequest .DELETE (.completes lat ⟨status, stx, b1⟩) t
        = { success := true, status := status,
            data := some (.bool true) }) ∧
    (¬ (200 ≤ status ∧ status ≤ 299) →
      apiRequest .DELETE (.completes lat ⟨status, stx, b1⟩) t
        = { success := false, status := status,
            error := some (errObj status (.str "Error")
              (.str "Failed to delete resource")) }) := by
  refine ⟨?_, ?_, ?_⟩
  · simp [apiRequest, apiWithTimeout_completes hlat, Bind.bind,
      Except.bind, handleResponse, RawResponse.ok]
  · intro h
    simp [apiRequest, apiWithTimeout_completes hlat, Bind.bind,
      Except.bind, handleResponse, ok_eq_true _ _ h]
  · intro h
    simp [apiRequest, apiWithTimeout_completes hlat, Bind.bind,
      Except.bind, handleResponse, ok_eq_false _ _ h]

/-- C7 (witness): a DELETE answered with HTTP 204 yields the success
envelope with `data = true` regardless of the (here: malformed) body. -/
theorem c7_witness :
    apiRequest .DELETE
        (.completes 0 ⟨204, "No Content",
          .error ⟨true, "SyntaxError", "x"⟩⟩) 8000
      = { success := true, status := 204, data := some (.bool true) } :=
  (c7_delete_ignores_body 0 8000 (by decide) 204 "No Content"
      (.error ⟨true, "SyntaxError", "x"⟩) (.ok .null)).2.1 (by decide)

/-- C2: for every non-2xx response to a non-DELETE request whose parsed
body carries an `error` field holding an object, the envelope's `error`
is exactly that object, `success` is false, and `status` is the real
HTTP status. -/
theorem c2_error_passthrough (method : HTTPMethod) (hm : method ≠ .DELETE)
    (lat t : Nat) (hlat : lat ≤ t) (status : Nat)
    (hs : ¬ (200 ≤ status ∧ status ≤ 299)) (stx : String)
    (body eobj : List (String × Json))
    (he : body.lookup "error" = some (.obj eobj)) :
    apiRequest method (.completes lat ⟨status, stx, .ok (.obj body)⟩) t
      = { success := false, status := status,
          error := some (.obj eobj) } := by
  simp [apiRequest, apiWithTimeout_completes hlat, Bind.bind, Except.bind,
    handleResponse, hm, ok_eq_false _ _ hs, Json.member, he, truthyOpt,
    Json.truthy]

/-- C2 (witness): a 404 whose body is
`{error: {status: 404, name: "NotFoundError", message: "not found"}}`
yields a failure envelope with exactly that error object. -/
theorem c2_witness :
    apiRequest .GET (.completes 0 ⟨404, "Not Found",
        .ok (.obj [("error", .obj [("status", .num 404),
          ("name", .str "NotFoundError"),
          ("message", .str "not found")])])⟩) 8000
      = { success := false, status := 404,
          error := some (.obj [("status", .num 404),
            ("name", .str "NotFoundError"),
            ("message", .str "not found")]) } :=
  c2_error_passthrough .GET (by decide) 0 8000 (by decide) 404
    (by decide) "Not Found" _ _ rfl

/-- C4: a call that exceeds the configured timeout produces the
synthetic envelope with `status = 408`, `error.name = "TimeoutError"`
and `success = false`; moreover the `AbortError` on which that branch
keys occurs in `apiWithTimeout` exactly when the timer fired — the
caller holds no abort handle, so an abort is always self-inflicted
(transport failures are not named `AbortError`). -/
theorem c4_timeout (method : HTTPMethod) (net : NetBehavior) (t : Nat)
    (hnoabort : ∀ lat e, net = .fails lat e → e.name ≠ "AbortError") :
    (timedOut net t = true → apiRequest method net t = timeoutEnvelope) ∧
    (apiWithTimeout net t = .error abortError ↔ timedOut net t = true) := by
  cases net with
  | completes lat r =>
      constructor
      · intro h
        simp [timedOut] at h
        simp [apiRequest, apiWithTimeout, Nat.not_le.mpr h, Bind.bind,
          Except.bind, abortError]
      · constructor
        · intro h
          by_cases hl : lat ≤ t
          · simp [apiWithTimeout, hl] at h
          · simp [timedOut]; omega
        · intro h
          simp [timedOut] at h
          simp [apiWithTimeout, Nat.not_le.mpr h]
  | fails lat e =>
      constructor
      · intro h
        simp [timedOut] at h
        simp [apiRequest, apiWithTimeout, Nat.not_le.mpr h, Bind.bind,
          Except.bind, abortError]
      · constructor
        · intro h
          by_cases hl : lat ≤ t
          · simp [apiWithTimeout, hl] at h
            exact absurd (congrArg JsErr.name h)
              (hnoabort lat e rfl)
          · simp [timedOut]; omega
        · intro h
          simp [timedOut] at h
          simp [apiWithTimeout, Nat.not_le.mpr h]
  | hangs =>
      constructor
      · intro _
        simp [apiRequest, apiWithTimeout, Bind.bind, Except.bind,
          abortError]
      · simp [apiWithTimeout, timedOut]

/-- C4 (witness): a transport that never settles yields the 408 timeout
envelope. -/
theorem c4_witness :
    apiRequest .GET .hangs 8000 = timeoutEnvelope :=
  (c4_timeout .GET .hangs 8000
      (fun _ _ h => NetBehavior.noConfusion h)).1 rfl

/-- C1 (counterexample): a 200 response whose parsed body is
`{data: 0, meta: 0}` does have a `data` field, yet — the source tests
truthiness, not presence — the envelope's `data` is the whole body
rather than the inner value `0`, and the body's `meta` field is not
carried through. -/
theorem c1_counterexample :
    (Json.obj [("data", .num 0), ("meta", .num 0)]).member "data"
      = .ok (some (.num 0)) ∧
    (apiRequest .GET (.completes 0 ⟨200, "OK",
        .ok (.obj [("data", .num 0), ("meta", .num 0)])⟩) 8000).data
      = some (.obj [("data", .num 0), ("meta", .num 0)]) ∧
    some (Json.obj [("data", .num 0), ("meta", .num 0)])
      ≠ some (Json.num 0) ∧
    (apiRequest .GET (.completes 0 ⟨200, "OK",
        .ok (.obj [("data", .num 0), ("meta", .num 0)])⟩) 8000).meta
      = none := by
  refine ⟨rfl, rfl, ?_, rfl⟩
  intro h
  injection h with h1
  exact Json.noConfusion h1

/-- C1 (amended): for every 2xx response to a non-DELETE request whose
parsed body is not `null`: if the body has a *truthy* `data` field the
envelope's `data` is that inner value, otherwise (absent or falsy) it is
the entire parsed body; a *truthy* `meta` field is carried through while
an absent or falsy one leaves `meta` unset; and `success` is true with
`status` the real HTTP status and no `error`. -/
theorem c1_success_unwrap (method : HTTPMethod) (hm : method ≠ .DELETE)
    (lat t : Nat) (hlat : lat ≤ t) (status : Nat)
    (hs : 200 ≤ status ∧ status ≤ 299) (stx : String) (body : Json)
    (hb : body ≠ .null) :
    (∀ v, optChain (some body) "data" = some v → v.truthy = true →
      apiRequest method (.completes lat ⟨status, stx, .ok body⟩) t
        = { success := true, status := status, data := some v,
            meta := if truthyOpt (optChain (some body) "meta") then
              optChain (some body) "meta" else none }) ∧
    (truthyOpt (optChain (some body) "data") = false →
      apiRequest method (.completes lat ⟨status, stx, .ok body⟩) t
        = { success := true, status := status, data := some body,
            meta := if truthyOpt (optChain (some body) "meta") then
              optChain (some body) "meta" else none }) := by
  constructor
  · intro v hv htr
    simp [apiRequest, apiWithTimeout_completes hlat, Bind.bind,
      Except.bind, handleResponse, hm, ok_eq_true _ _ hs,
      member_of_ne_null hb, hv, truthyOpt, htr]
  · intro hfalsy
    simp [apiRequest, apiWithTimeout_completes hlat, Bind.bind,
      Except.bind, handleResponse, hm, ok_eq_true _ _ hs,
      member_of_ne_null hb, hfalsy]

/-- C1 (witness): a 200 whose body is `{data: {id: 1}, meta: {p: 2}}`
unwraps to the inner object with the meta carried through. -/
theorem c1_witness :
    apiRequest .GET (.completes 0 ⟨200, "OK",
        .ok (.obj [("data", .obj [("id", .num 1)]),
          ("meta", .obj [("p", .num 2)])])⟩) 8000
      = { success := true, status := 200,
          data := some (.obj [("id", .num 1)]),
          meta := some (.obj [("p", .num 2)]) } := by
  have h := (c1_success_unwrap .GET (by decide) 0 8000 (by decide) 200
      (by decide) "OK"
      (.obj [("data", .obj [("id", .num 1)]),
        ("meta", .obj [("p", .num 2)])])
      (fun h => Json.noConfusion h)).1
    (.obj [("id", .num 1)]) rfl rfl
  exact h

/-- C3 (counterexample): a 418 response with status text "teapot" and
body `{error: "boom", message: "mymsg"}` carries no structured error
*object*, yet the code passes the truthy string `"boom"` through as the
envelope's error instead of synthesizing one; in particular the error is
neither the synthesized object with the body's `message` field nor the
one with the HTTP status text. -/
theorem c3_counterexample :
    apiRequest .GET (.completes 0 ⟨418, "teapot",
        .ok (.obj [("error", .str "boom"), ("message", .str "mymsg")])⟩)
        8000
      = { success := false, status := 418,
          error := some (.str "boom") } ∧
    Json.str "boom" ≠ errObj 418 (.str "Error") (.str "mymsg") ∧
    Json.str "boom" ≠ errObj 418 (.str "Error") (.str "teapot") :=
  ⟨rfl, fun h => Json.noConfusion h, fun h => Json.noConfusion h⟩

/-- C3 (amended): for every non-2xx response to a non-DELETE request
whose parsed body is not `null` and whose `error` field is absent or
falsy, the envelope's error is synthesized with the real HTTP status,
the fallback name "Error", and a message equal to the HTTP status text
when non-empty, else the generic text "An error occurred"; the parsed
body's `message` field is never consulted (a truthy `error` field of
any shape is passed through instead). -/
theorem c3_synthesized_error (method : HTTPMethod) (hm : method ≠ .DELETE)
    (lat t : Nat) (hlat : lat ≤ t) (status : Nat)
    (hs : ¬ (200 ≤ status ∧ status ≤ 299)) (stx : String) (body : Json)
    (hb : body ≠ .null)
    (hfalsy : truthyOpt (optChain (some body) "error") = false) :
    apiRequest method (.completes lat ⟨status, stx, .ok body⟩) t
      = { success := false, status := status,
          error := some (errObj status (.str "Error")
            (.str (if stx = "" then "An error occurred" else stx))) } := by
  simp [apiRequest, apiWithTimeout_completes hlat, Bind.bind,
    Except.bind, handleResponse, hm, ok_eq_false _ _ hs,
    member_of_ne_null hb, hfalsy, optChain_of_falsy hfalsy, nullish]

/-- C3 (witness): a 400 with status text "Bad Request" and body
`{message: "boom"}` yields the synthesized error whose message is the
status text, not the body's `message` field. -/
theorem c3_witness :
    apiRequest .GET (.completes 0 ⟨400, "Bad Request",
        .ok (.obj [("message", .str "boom")])⟩) 8000
      = { success := false, status := 400,
          error := some (errObj 400 (.str "Error")
            (.str "Bad Request")) } :=
  c3_synthesized_error .GET (by decide) 0 8000 (by decide) 400
    (by decide) "Bad Request" (.obj [("message", .str "boom")])
    (fun h => Json.noConfusion h) rfl

theorem isSome_of_truthy {o : Option Json} (h : truthyOpt o = true) :
    o.isSome = true := by
  cases o with
  | none => simp [truthyOpt] at h
  | some v => rfl

theorem handleResponse_invariants {method : HTTPMethod}
    {r : RawResponse} {env : Envelope}
    (h : handleResponse method r = .ok env) :
    (env.success = true → env.data.isSome = true ∧ env.error = none) ∧
    (env.success = false → env.error.isSome = true ∧ env.data = none) ∧
    env.status = r.status := by
  unfold handleResponse at h
  simp only [Bind.bind, Except.bind] at h
  repeat' split at h
  all_goals
    first
    | exact Except.noConfusion h
    | (injection h with h; subst h; simp_all [isSome_of_truthy])

/-- C5: every envelope returned by `apiRequest` populates exactly one of
`data` / `error` according to `success`, and its `status` is either the
real HTTP status of a delivered response or one of the synthetic codes
408 (timeout) and 500 (uncategorized failure). -/
theorem c5_envelope_invariants (method : HTTPMethod) (net : NetBehavior)
    (t : Nat) :
    ((apiRequest method net t).success = true →
      (apiRequest method net t).data.isSome = true ∧
      (apiRequest method net t).error = none) ∧
    ((apiRequest method net t).success = false →
      (apiRequest method net t).error.isSome = true ∧
      (apiRequest method net t).data = none) ∧
    ((apiRequest method net t).status = 408 ∨
      (apiRequest method net t).status = 500 ∨
      net.realStatus = some (apiRequest method net t).status) := by
  cases net with
  | completes lat r =>
      by_cases hl : lat ≤ t
      · cases hh : handleResponse method r with
        | ok env =>
            have hinv := handleResponse_invariants hh
            simp only [apiRequest, apiWithTimeout_completes hl,
              Bind.bind, Except.bind, hh, NetBehavior.realStatus]
            exact ⟨hinv.1, hinv.2.1,
              Or.inr (Or.inr (by rw [hinv.2.2]))⟩
        | error e =>
            simp only [apiRequest, apiWithTimeout_completes hl,
              Bind.bind, Except.bind, hh, NetBehavior.realStatus]
            split <;>
              simp [timeoutEnvelope, networkErrorEnvelope, errObj]
      · simp [apiRequest, apiWithTimeout, hl, Bind.bind, Except.bind,
          abortError, timeoutEnvelope, errObj]
  | fails lat e =>
      by_cases hl : lat ≤ t
      · simp only [apiRequest, apiWithTimeout, if_pos hl, Bind.bind,
          Except.bind, NetBehavior.realStatus]
        split <;> simp [timeoutEnvelope, networkErrorEnvelope, errObj]
      · simp [apiRequest, apiWithTimeout, hl, Bind.bind, Except.bind,
          abortError, timeoutEnvelope, errObj]
  | hangs =>
      simp [apiRequest, apiWithTimeout, Bind.bind, Except.bind,
        abortError, timeoutEnvelope, errObj]

theorem handleResponse_not_ok {method : HTTPMethod} {r : RawResponse}
    {env : Envelope} (h : handleResponse method r = .ok env)
    (hok : r.ok = false) : env.success = false := by
  unfold handleResponse at h
  simp only [hok, Bind.bind, Except.bind, Bool.not_false, if_true,
    Bool.false_eq_true, if_false] at h
  repeat' split at h
  all_goals
    first
    | exact Except.noConfusion h
    | (injection h with h; subst h; rfl)

/-- C6: `apiRequest` never raises — it is a total function into
envelopes, and every HTTP-level failure (any delivered non-2xx response
whose body parses) yields a failure envelope; any unexpected exception
during transport or parsing that is not the abort (network failure,
malformed JSON) is caught and converted into the 500 "NetworkError"
envelope, whose message is the exception's message when it is an
`Error` and the generic fallback otherwise (see
`networkErrorEnvelope`). -/
theorem c6_exception_conversion (method : HTTPMethod) :
    (∀ lat t e, lat ≤ t →
      (e.isError && e.name == "AbortError") = false →
      apiRequest method (.fails lat e) t = networkErrorEnvelope e) ∧
    (∀ lat t status stx e, lat ≤ t → method ≠ .DELETE →
      (e.isError && e.name == "AbortError") = false →
      apiRequest method (.completes lat ⟨status, stx, .error e⟩) t
        = networkErrorEnvelope e) ∧
    (∀ lat t status stx body, lat ≤ t →
      ¬ (200 ≤ status ∧ status ≤ 299) →
      (apiRequest method
          (.completes lat ⟨status, stx, .ok body⟩) t).success
        = false) := by
  refine ⟨?_, ?_, ?_⟩
  · intro lat t e hl habort
    simp only [Bool.and_eq_false_imp, beq_eq_false_iff_ne, ne_eq]
      at habort
    simp [apiRequest, apiWithTimeout, hl, Bind.bind, Except.bind]
    intro h1 h2
    exact absurd h2 (habort h1)
  · intro lat t status stx e hl hm habort
    simp only [Bool.and_eq_false_imp, beq_eq_false_iff_ne, ne_eq]
      at habort
    simp [apiRequest, apiWithTimeout_completes hl, Bind.bind,
      Except.bind, handleResponse, hm]
    intro h1 h2
    exact absurd h2 (habort h1)
  · intro lat t status stx body hl hs
    cases hh : handleResponse method ⟨status, stx, .ok body⟩ with
    | ok env =>
        simp only [apiRequest, apiWithTimeout_completes hl, Bind.bind,
          Except.bind, hh]
        exact handleResponse_not_ok hh (ok_eq_false _ _ hs)
    | error e =>
        simp only [apiRequest, apiWithTimeout_completes hl, Bind.bind,
          Except.bind, hh]
        split <;> simp [timeoutEnvelope, networkErrorEnvelope, errObj]

/-- C6 (witness): a transport rejection `TypeError: fetch failed` is
converted into the 500 NetworkError envelope carrying its message. -/
theorem c6_witness :
    apiRequest .GET (.fails 10 ⟨true, "TypeError", "fetch failed"⟩) 8000
      = networkErrorEnvelope ⟨true, "TypeError", "fetch failed"⟩ :=
  (c6_exception_conversion .GET).1 10 8000
    ⟨true, "TypeError", "fetch failed"⟩ (by decide) (by decide)

/-- C8 (counterexample): an envelope with `success = true` and a
*present* but falsy `data` (here the number `0`) makes
`validateApiResponse` throw the generic failure instead of returning
the data: presence is tested by truthiness. -/
theorem c8_counterexample :
    (Envelope.data { success := true, status := 200,
                     data := some (Json.num 0), meta := none,
                     error := none }).isSome = true ∧
    validateApiResponse
        (some { success := true, status := 200, data := some (.num 0) })
        none
      = .thrown (.str "Failed to load resource") ∧
    InterpResult.thrown (α := Option Json)
        (.str "Failed to load resource")
      ≠ .ok (some (.num 0)) := by
  refine ⟨rfl, rfl, ?_⟩
  intro h
  exact InterpResult.noConfusion h

/-- C8 (amended): `validateApiResponse(envelope, label)` returns exactly
`envelope.data` whenever `envelope.success === true` and `envelope.data`
is *truthy* (for a well-formed success envelope, which carries no
`error` field); in every other case it throws or triggers the not-found
redirect and never returns a value. -/
theorem c8_extract :
    (∀ (env : Envelope) (label : Option String),
      env.success = true → truthyOpt env.data = true →
      env.error = none →
      validateApiResponse (some env) label = .ok env.data) ∧
    (∀ (d : Option Envelope) (label : Option String),
      (∀ env, d = some env →
        ¬ (env.success = true ∧ truthyOpt env.data = true)) →
      (∃ m, validateApiResponse d label = .thrown m) ∨
        validateApiResponse d label = .redirectNotFound) := by
  constructor
  · intro env label hs hd he
    simp [validateApiResponse, handleApiError, he, is404, optChain, hs,
      hd]
  · intro d label hbad
    cases d with
    | none => exact Or.inl ⟨_, rfl⟩
    | some env =>
        have h := hbad env rfl
        unfold validateApiResponse handleApiError
        by_cases h404 : is404 (optChain env.error "status") = true
        · simp [h404]
        · by_cases hs : env.success = true
          · have hd : truthyOpt env.data = false := by
              cases hdt : truthyOpt env.data with
              | false => rfl
              | true => exact absurd ⟨hs, hdt⟩ h
            simp [h404, hs, hd]
          · rw [Bool.not_eq_true] at hs
            simp [h404, hs]

/-- C8 (witness): a success envelope with a truthy payload extracts to
exactly that payload. -/
theorem c8_witness :
    validateApiResponse
        (some { success := true, status := 200,
                data := some (Json.obj [("id", Json.num 1)]),
                meta := none, error := none }) (some "home page")
      = .ok (some (.obj [("id", .num 1)])) :=
  c8_extract.1
    { success := true, status := 200,
      data := some (Json.obj [("id", Json.num 1)]), meta := none,
      error := none }
    (some "home page") rfl rfl rfl

theorem not_and_bool {a b : Bool} (h : ¬ (a = true ∧ b = true)) :
    (!a || !b) = true := by
  cases a <;> cases b <;> simp_all

/-- C9 (counterexample): an unsuccessful envelope whose error carries a
*present* but empty `message` makes `handleApiError` throw the generic
failure text, not the envelope's (empty) error message: the message is
used only when truthy. -/
theorem c9_counterexample :
    optChain (Envelope.error { success := false, status := 500,
                               data := none, meta := none,
                               error := some (.obj [("message", .str "")]) })
        "message"
      = some (.str "") ∧
    handleApiError
        (some { success := false, status := 500,
                error := some (.obj [("message", .str "")]) }) none
      = .thrown (.str "Failed to load resource") ∧
    Json.str "Failed to load resource" ≠ Json.str "" := by
  refine ⟨rfl, rfl, ?_⟩
  intro h
  injection h with h1
  exact absurd h1 (by decide)

/-- C9 (amended): `handleApiError` maps each envelope state to exactly
one terminal action — an absent envelope throws the generic failure
carrying the resource label; `error.status === 404` triggers the
not-found redirect and nothing else; any other unsuccessful or
truthy-data-less envelope throws, using the envelope's error message
when that message is *truthy* and the generic failed-to-load text
otherwise; and a successful envelope with truthy data returns normally
with no effect. -/
theorem c9_state_machine (d : Option Envelope) (label : Option String) :
    (d = none → handleApiError d label
      = .thrown (.str ("Failed to load " ++ labelOr label))) ∧
    (∀ env, d = some env → is404 (optChain env.error "status") = true →
      handleApiError d label = .redirectNotFound) ∧
    (∀ env v, d = some env →
      is404 (optChain env.error "status") = false →
      ¬ (env.success = true ∧ truthyOpt env.data = true) →
      optChain env.error "message" = some v → v.truthy = true →
      handleApiError d label = .thrown v) ∧
    (∀ env, d = some env →
      is404 (optChain env.error "status") = false →
      ¬ (env.success = true ∧ truthyOpt env.data = true) →
      truthyOpt (optChain env.error "message") = false →
      handleApiError d label
        = .thrown (.str ("Failed to load " ++ labelOr label))) ∧
    (∀ env, d = some env →
      is404 (optChain env.error "status") = false →
      env.success = true → truthyOpt env.data = true →
      handleApiError d label = .ok ()) := by
  refine ⟨?_, ?_, ?_, ?_, ?_⟩
  · intro h; subst h; rfl
  · intro env h h404; subst h
    simp [handleApiError, h404]
  · intro env v h h404 hbad hm htr; subst h
    simp [handleApiError, h404, not_and_bool hbad, failMessage, hm, htr]
  · intro env h h404 hbad hm; subst h
    simp only [handleApiError, h404, Bool.false_eq_true, if_false,
      not_and_bool hbad, if_true]
    cases hmv : optChain env.error "message" with
    | none => simp [failMessage, hmv]
    | some v =>
        rw [hmv] at hm
        simp only [truthyOpt] at hm
        simp [failMessage, hmv, hm]
  · intro env h h404 hs hd; subst h
    simp [handleApiError, h404, hs, hd]

/-- C9 (witness): the not-found redirect fires on an envelope whose
error status is 404, and an absent envelope throws the generic
failure. -/
theorem c9_witness :
    handleApiError
        (some { success := false, status := 404,
                error := some (.obj [("status", .num 404)]) }) none
      = .redirectNotFound :=
  (c9_state_machine
      (some { success := false, status := 404,
              error := some (.obj [("status", .num 404)]) }) none).2.1
    _ rfl rfl

/-- C10: an envelope with `success === true` whose `data` is present
but falsy (such as `0`) makes `handleApiError` — and therefore
`validateApiResponse` — throw instead of returning normally, because
presence of `data` is tested by truthiness (a success-shaped envelope
carries no `error` field, per the data model and the C5 invariant);
and only envelopes with truthy `data` ever pass validation. -/
theorem c10_truthy_data_required (env : Envelope) (label : Option String)
    (v : Json) (hs : env.success = true) (hd : env.data = some v)
    (hf : v.truthy = false) (he : env.error = none) :
    (∃ m, handleApiError (some env) label = .thrown m) ∧
    (∃ m, validateApiResponse (some env) label = .thrown m) ∧
    (∀ (d : Option Envelope) (lbl : Option String) (r : Option Json),
      validateApiResponse d lbl = .ok r →
      ∃ env2, d = some env2 ∧ truthyOpt env2.data = true) := by
  have hthrow : handleApiError (some env) label
      = .thrown (failMessage env label) := by
    simp [handleApiError, he, optChain, is404, hd, truthyOpt, hf]
  refine ⟨⟨_, hthrow⟩, ⟨failMessage env label, ?_⟩, ?_⟩
  · simp [validateApiResponse, hthrow]
  · intro d lbl r h
    cases d with
    | none => simp [validateApiResponse, handleApiError] at h
    | some env2 =>
        refine ⟨env2, rfl, ?_⟩
        unfold validateApiResponse handleApiError at h
        by_cases h404 : is404 (optChain env2.error "status") = true
        · simp [h404] at h
        · cases htd : truthyOpt env2.data with
          | true => rfl
          | false => simp [h404, htd] at h

/-- C5 (witness): the invariant instantiated at a concrete timed-out
call: the resulting envelope is a failure carrying an error and no
data. -/
theorem c5_witness :
    (apiRequest .GET .hangs 8000).error.isSome = true ∧
    (apiRequest .GET .hangs 8000).data = none :=
  (c5_envelope_invariants .GET .hangs 8000).2.1 rfl

/-- C10 (witness): the success envelope carrying `data = 0` throws. -/
theorem c10_witness :
    ∃ m, handleApiError
        (some { success := true, status := 200,
                data := some (.num 0) }) (some "summary")
      = .thrown m :=
  (c10_truthy_data_required
      { success := true, status := 200, data := some (.num 0) }
      (some "summary") (.num 0) rfl rfl rfl rfl).1
